import Mathlib

/-
Verification of the conversation-understanding core of a travel-assistant
chat engine.  The Lean definitions below are a shallow embedding of
`app/core/conversation.py`, `app/core/error_recovery.py` and
`app/models/conversation.py`.

Modelling conventions:
  * Python strings are Lean `String`s; case conversion, `str.title`,
    `str.strip`, `in` (substring), `str.find`, slicing and `str.split`
    are implemented below for the ASCII fragment the engine manipulates.
  * Python float scores are modelled as rationals; every concrete score
    computed in a theorem below agrees with the float computation of the
    source on that input.
  * `re.search` / `re.findall` results are abstracted by a `ReOracle`:
    the pattern tables keep one opaque identifier per source pattern and
    the oracle says which patterns match a given message (respectively
    which raw capture strings `re.findall` over `DESTINATION_PATTERNS`
    returns).  Theorems quantify over all oracles, or instantiate an
    oracle whose answers on the cited concrete messages are exactly what
    the Python regexes produce there.
  * Python `list(set(xs))` (whose iteration order is unspecified) is
    modelled as first-seen-order deduplication; no theorem below depends
    on the order chosen.
  * `datetime.now()` timestamps are not modelled; no claim refers to them.
-/

namespace TravelSpec

/-! ### ASCII character and string helpers -/

def isLowerA (c : Char) : Bool := decide (97 ≤ c.toNat ∧ c.toNat ≤ 122)

def isUpperA (c : Char) : Bool := decide (65 ≤ c.toNat ∧ c.toNat ≤ 90)

def isAlphaA (c : Char) : Bool := isUpperA c || isLowerA c

def isDigitA (c : Char) : Bool := decide (48 ≤ c.toNat ∧ c.toNat ≤ 57)

def isSpaceA (c : Char) : Bool := c == ' ' || c == '\t' || c == '\r' || c == '\n'

/-- ASCII `str.upper` on one character. -/
def upperChar (c : Char) : Char := if isLowerA c then Char.ofNat (c.toNat - 32) else c

/-- ASCII `str.lower` on one character. -/
def lowerChar (c : Char) : Char := if isUpperA c then Char.ofNat (c.toNat + 32) else c

/-- Python `str.lower`. -/
def strLower (s : String) : String := String.mk (s.data.map lowerChar)

/-- Python `str.upper`. -/
def strUpper (s : String) : String := String.mk (s.data.map upperChar)

/-- Python `str.strip` (ASCII whitespace). -/
def trimList (l : List Char) : List Char :=
  ((l.dropWhile isSpaceA).reverse.dropWhile isSpaceA).reverse

def trimStr (s : String) : String := String.mk (trimList s.data)

/-- One step of Python `str.title`: a cased character following an
alphabetic character is lowercased, any other character is uppercased. -/
def caseForTitle (prevAlpha : Bool) (c : Char) : Char :=
  if prevAlpha then lowerChar c else upperChar c

def pyTitleAux (prevAlpha : Bool) : List Char → List Char
  | [] => []
  | c :: cs => caseForTitle prevAlpha c :: pyTitleAux (isAlphaA c) cs

/-- Python `str.title` (ASCII). -/
def pyTitle (s : String) : String := String.mk (pyTitleAux false s.data)

def checkTitleAux (prevAlpha : Bool) : List Char → Bool
  | [] => true
  | c :: cs => (c == caseForTitle prevAlpha c) && checkTitleAux (isAlphaA c) cs

/-- A string is title-cased when it is a fixed point of `str.title`. -/
def isTitleCased (s : String) : Bool := checkTitleAux false s.data

/-- Python `s[0].isupper()` guarded by nonemptiness. -/
def firstIsUpper (s : String) : Bool :=
  match s.data with
  | [] => false
  | c :: _ => isUpperA c

def substrInAux (needle : List Char) : List Char → Bool
  | [] => needle.isEmpty
  | c :: cs => needle.isPrefixOf (c :: cs) || substrInAux needle cs

/-- Python `needle in hay` on strings. -/
def substrIn (needle hay : String) : Bool := substrInAux needle.data hay.data

def strFindAux (needle : List Char) (i : Nat) : List Char → Option Nat
  | [] => if needle.isEmpty then some i else none
  | c :: cs => if needle.isPrefixOf (c :: cs) then some i else strFindAux needle (i + 1) cs

/-- Python `hay.find(needle)`; `none` models the -1 result. -/
def strFind (hay needle : String) : Option Nat := strFindAux needle.data 0 hay.data

/-- Python slice `s[a:b]` (with the clamping Python performs). -/
def sliceStr (s : String) (a b : Nat) : String := String.mk ((s.data.drop a).take (b - a))

/-- Python `s.startswith(p)`. -/
def startsWithStr (s p : String) : Bool := p.data.isPrefixOf s.data

/-- Python `s.endswith(p)`. -/
def endsWithStr (s p : String) : Bool := p.data.isSuffixOf s.data

/-- Python `s.split()` : split on whitespace runs, dropping empty parts. -/
def pySplit (s : String) : List String :=
  (s.split (fun c => isSpaceA c)).filter (fun t => !t.isEmpty)

/-- First-seen-order deduplication. -/
def firstDedup {α : Type} [DecidableEq α] (l : List α) : List α :=
  l.foldl (fun acc x => if x ∈ acc then acc else acc ++ [x]) []

def countOccGo (needle : List Char) : Nat → List Char → Nat
  | _, [] => 0
  | 0, _ => 0
  | fuel + 1, c :: cs =>
    if needle.isPrefixOf (c :: cs) then 1 + countOccGo needle fuel ((c :: cs).drop needle.length)
    else countOccGo needle fuel cs

/-- Python `hay.count(needle)`: non-overlapping occurrences. -/
def countOcc (hay needle : String) : Nat :=
  if needle.isEmpty then hay.length + 1 else countOccGo needle.data hay.data.length hay.data

/-! ### Data model (`app/models/conversation.py`) -/

inductive MessageRole
  | user
  | assistant
  | system
deriving DecidableEq, Repr

structure Message where
  role : MessageRole
  content : String
deriving DecidableEq, Repr

inductive ConversationState
  | greeting
  | destination_planning
  | activity_discovery
  | practical_planning
  | context_enrichment
  | recommendation_refinement
deriving DecidableEq, Repr

inductive UserIntent
  | destination_inquiry
  | activity_request
  | weather_check
  | cultural_info
  | practical_advice
  | budget_planning
  | packing_help
deriving DecidableEq, Repr

/-- `ConversationContext`; the timestamp-valued and dict-valued fields the
claims never touch (`user_preferences`, `travel_profile`,
`last_external_data_used`, `weather_mentioned_*`) are omitted, and
`travel_dates` keeps only the `raw_date` string of the source dict. -/
structure ConversationContext where
  session_id : String
  current_destination : Option String := none
  travel_dates : Option String := none
  budget_range : Option String := none
  interests : List String := []
  previous_destinations : List String := []
  conversation_depth : Nat := 0
deriving DecidableEq, Repr

structure ConversationSession where
  session_id : String
  state : ConversationState := ConversationState.greeting
  context : ConversationContext
  messages : List Message := []
  detected_intents : List UserIntent := []
deriving DecidableEq, Repr

/-- The fresh session built by `ConversationEngine.get_or_create_session`. -/
def freshSession (sid : String) : ConversationSession :=
  { session_id := sid, context := { session_id := sid } }

/-! ### Regular-expression oracle

The engine's regexes are opaque to this embedding.  Each source pattern
gets one identifier (a `Nat`); an oracle answers `re.search(pattern,
text)` queries and supplies the raw (flattened, stripped) capture list
that `re.findall` over `ContextExtractor.DESTINATION_PATTERNS` produces
for a message, the first `BUDGET_PATTERNS` match and the first
`DATE_PATTERNS` match. -/

structure ReOracle where
  search : Nat → String → Bool
  destMatches : String → List String
  budgetMatch : String → Option String
  dateMatch : String → Option String

def mkPatternIds (base n : Nat) : List Nat := (List.range n).map (fun i => base + i)

/-- `IntentDetector.INTENT_PATTERNS`: the source keeps 8 patterns for
destination inquiry, 11 for activity requests, 9 for weather, 11 for
cultural info, 15 for practical advice, 14 for budget planning and 12
for packing help, iterated in dict insertion order. -/
def INTENT_PATTERNS : List (UserIntent × List Nat) :=
  [(UserIntent.destination_inquiry, mkPatternIds 0 8),
   (UserIntent.activity_request, mkPatternIds 10 11),
   (UserIntent.weather_check, mkPatternIds 30 9),
   (UserIntent.cultural_info, mkPatternIds 50 11),
   (UserIntent.practical_advice, mkPatternIds 70 15),
   (UserIntent.budget_planning, mkPatternIds 90 14),
   (UserIntent.packing_help, mkPatternIds 110 12)]

/-- The 12 implicit weather patterns of `IntentDetector.detect_intents`. -/
def implicit_weather_patterns : List Nat := mkPatternIds 200 12

/-- The 7 implicit activity patterns of `IntentDetector.detect_intents`. -/
def implicit_activity_patterns : List Nat := mkPatternIds 220 7

/-! ### `IntentDetector.detect_intents` -/

def detect_intents (o : ReOracle) (message : String) (context : ConversationContext) :
    List UserIntent :=
  let message_lower := strLower message
  -- first pass: explicit patterns; the first matching pattern of a
  -- category adds that category's intent and short-circuits the category
  let detected := INTENT_PATTERNS.foldl
    (fun detected ip =>
      if ip.2.any (fun pid => o.search pid message_lower) then detected ++ [ip.1] else detected)
    []
  -- context-based passes, only with an established destination
  let detected :=
    if context.current_destination.isSome then
      let detected :=
        if detected.isEmpty || !(detected.contains UserIntent.weather_check) then
          if implicit_weather_patterns.any (fun pid => o.search pid message_lower) then
            detected ++ [UserIntent.weather_check]
          else detected
        else detected
      if detected.isEmpty then
        if implicit_activity_patterns.any (fun pid => o.search pid message_lower) then
          detected ++ [UserIntent.activity_request]
        else detected
      else detected
    else detected
  let detected :=
    if context.current_destination.isSome && detected.isEmpty then
      detected ++ [UserIntent.activity_request]
    else detected
  let detected :=
    if detected.isEmpty then detected ++ [UserIntent.destination_inquiry] else detected
  firstDedup detected

/-! ### `ContextExtractor` destination extraction -/

/-- The false-positive set of `ContextExtractor.extract_destinations`
(source order; Python stores it as a set, membership is all that is
used). -/
def false_positives : List String :=
  ["trip", "travel", "vacation", "visit", "going", "planning", "to", "in", "at", "from",
   "the", "and", "or", "but", "with", "like", "about", "what", "how", "when", "where",
   "pack", "weather", "best", "season", "time", "good", "great", "nice", "beautiful",
   "there", "here", "place", "places", "destination", "country", "city", "area",
   "monday", "tuesday", "wednesday", "thursday", "friday", "saturday", "sunday",
   "january", "february", "march", "april", "may", "june", "july", "august",
   "september", "october", "november", "december", "today", "tomorrow", "yesterday",
   "amazing", "incredible", "wonderful", "terrible", "expensive", "cheap", "hot", "cold",
   "people", "person", "family", "friend", "hotel", "restaurant", "museum", "beach",
   "instagram", "facebook", "google", "youtube", "reddit", "twitter",
   "money", "cost", "price", "budget", "food", "culture", "language", "airport",
   "flight", "train", "bus", "car", "taxi", "uber", "hotel", "hostel", "airbnb",
   "first solo", "solo trip", "solo travel", "first time", "next adventure",
   "adventure trip", "photography trip", "landscape photography", "northern lights",
   "my trip", "my vacation", "my travel", "group trip", "family trip"]

def travel_phrases : List String :=
  ["first solo", "solo trip", "solo travel", "first time", "next adventure",
   "adventure trip", "photography trip", "landscape photography", "northern lights",
   "my trip", "my vacation", "my travel", "group trip", "family trip",
   "bucket list", "dream destination", "perfect place"]

def non_destination_starts : List String :=
  ["the ", "a ", "an ", "my ", "your ", "our ", "their ", "first ", "next ", "last "]

def travel_context_indicators : List String :=
  ["visit", "go to", "travel", "trip", "vacation", "weather", "climate",
   "culture", "food", "people", "attractions", "museums", "restaurants",
   "hotels", "flights", "currency", "language", "visa", "passport"]

def exclusion_words : List String :=
  ["before", "after", "while", "when", "if", "unless", "during",
   "since", "until", "and then", "or", "but", "however",
   "in order", "in case", "in time", "in general"]

def before_context_enders : List String := ["about", "like", "such as", "including"]

def context_travel_indicators : List String :=
  ["visit", "travel", "trip", "vacation", "customs", "culture"]

/-- The closing travel-context scan of `is_likely_destination`: both its
branches return `True` in the source, so it never rejects; it is kept to
mirror the code. -/
def likely_context_check (dest message : String) : Bool :=
  let message_lower := strLower message
  let dest_lower := trimStr (strLower dest)
  match strFind message_lower dest_lower with
  | some dest_pos =>
    let context_start := dest_pos - 50
    let context_end := min message_lower.length (dest_pos + dest_lower.length + 50)
    let context := sliceStr message_lower context_start context_end
    if travel_context_indicators.any (fun ind => substrIn ind context) then true
    else true
  | none => true

/-- `is_likely_destination` inside `ContextExtractor.extract_destinations`
(the argument is already stripped and title-cased by the caller). -/
def is_likely_destination (dest message : String) : Bool :=
  let dest_lower := trimStr (strLower dest)
  if dest_lower ∈ false_positives then false
  else if travel_phrases.any (fun phrase => substrIn phrase dest_lower) then false
  else if dest_lower.length < 3 then false
  else if non_destination_starts.any (fun p => startsWithStr dest_lower p) then false
  else if dest == strLower dest || dest == strUpper dest then false
  else if !(firstIsUpper dest) then false
  else if dest.data.any (fun ch => isDigitA ch) then false
  else if dest.length == 1 then false
  else likely_context_check dest message

/-- `ContextExtractor._validate_destination_context`. -/
def validate_destination_context (destination original_message : String) : Bool :=
  let dest_lower := strLower destination
  let message_lower := strLower original_message
  match strFind message_lower dest_lower with
  | none => false
  | some dest_pos =>
    let after_dest_pos := dest_pos + dest_lower.length
    let after_ok :=
      if after_dest_pos < message_lower.length then
        let after_context := trimStr (sliceStr message_lower after_dest_pos (after_dest_pos + 20))
        !(exclusion_words.any (fun word => startsWithStr after_context word))
      else true
    if !after_ok then false
    else
      let before_context := trimStr (sliceStr message_lower (dest_pos - 20) dest_pos)
      if before_context_enders.any (fun e => endsWithStr before_context e) then
        context_travel_indicators.any (fun ind => substrIn ind message_lower)
      else true

/-- Cleaning applied to each raw candidate: `dest.strip().title()`. -/
def cleanCand (dest : String) : String := pyTitle (trimStr dest)

/-- One iteration of the final filter loop of `extract_destinations`. -/
def destSieveStep (message : String) (acc : List String) (dest_clean : String) : List String :=
  if validate_destination_context dest_clean message then
    if is_likely_destination dest_clean message then
      if dest_clean ∈ acc then acc else acc ++ [dest_clean]
    else acc
  else acc

/-- `ContextExtractor.extract_destinations`, taking the raw stripped
capture list the destination regexes produced for the message. -/
def extract_destinations_from (raw : List String) (message : String) : List String :=
  ((raw.map cleanCand).foldl (destSieveStep message) []).take 5

def extract_destinations (o : ReOracle) (message : String) : List String :=
  extract_destinations_from (o.destMatches message) message

/-! ### `ContextExtractor` interests and context update -/

def interest_keywords : List (String × List String) :=
  [("museums", ["museum", "art", "gallery", "culture", "history"]),
   ("food", ["restaurant", "food", "cuisine", "dining", "eat"]),
   ("nightlife", ["nightlife", "bar", "club", "party", "drink"]),
   ("nature", ["nature", "park", "hiking", "outdoor", "beach", "mountain"]),
   ("shopping", ["shopping", "market", "shop", "buy", "souvenir"]),
   ("architecture", ["architecture", "building", "church", "temple", "monument"]),
   ("couples", ["couple", "romantic", "honeymoon", "date"]),
   ("family", ["family", "kids", "children", "child"]),
   ("adventure", ["adventure", "extreme", "thrill", "adrenaline"])]

def extract_interests (message : String) : List String :=
  let message_lower := strLower message
  interest_keywords.foldl
    (fun interests kv =>
      if kv.2.any (fun keyword => substrIn keyword message_lower) then interests ++ [kv.1]
      else interests)
    []

/-- `ContextExtractor.update_context`. -/
def update_context (o : ReOracle) (context : ConversationContext) (message : String) :
    ConversationContext :=
  let destinations := extract_destinations o message
  let context :=
    match destinations with
    | [] => context
    | new_destination :: _ =>
      let previous :=
        match context.current_destination with
        | some cur =>
          if cur ≠ new_destination then
            if cur ∈ context.previous_destinations then context.previous_destinations
            else context.previous_destinations ++ [cur]
          else context.previous_destinations
        | none => context.previous_destinations
      { context with current_destination := some new_destination,
                     previous_destinations := previous }
  let context :=
    match o.budgetMatch message with
    | some budget => { context with budget_range := some budget }
    | none => context
  let context :=
    match o.dateMatch message with
    | some dates => { context with travel_dates := some dates }
    | none => context
  let new_interests :=
    (extract_interests message).foldl
      (fun acc interest => if interest ∈ acc then acc else acc ++ [interest])
      context.interests
  let context := { context with interests := new_interests }
  { context with conversation_depth := context.conversation_depth + 1 }

/-! ### `StateManager` -/

/-- `StateManager.STATE_TRANSITIONS` as a lookup; `none` models both a
missing inner key and the empty dict of recommendation refinement. -/
def STATE_TRANSITIONS (state : ConversationState) (intent : UserIntent) :
    Option ConversationState :=
  match state, intent with
  | ConversationState.greeting, UserIntent.destination_inquiry =>
    some ConversationState.destination_planning
  | ConversationState.greeting, UserIntent.activity_request =>
    some ConversationState.activity_discovery
  | ConversationState.greeting, UserIntent.practical_advice =>
    some ConversationState.practical_planning
  | ConversationState.destination_planning, UserIntent.activity_request =>
    some ConversationState.activity_discovery
  | ConversationState.destination_planning, UserIntent.weather_check =>
    some ConversationState.context_enrichment
  | ConversationState.destination_planning, UserIntent.cultural_info =>
    some ConversationState.context_enrichment
  | ConversationState.destination_planning, UserIntent.practical_advice =>
    some ConversationState.practical_planning
  | ConversationState.activity_discovery, UserIntent.destination_inquiry =>
    some ConversationState.recommendation_refinement
  | ConversationState.activity_discovery, UserIntent.practical_advice =>
    some ConversationState.practical_planning
  | ConversationState.activity_discovery, UserIntent.weather_check =>
    some ConversationState.context_enrichment
  | ConversationState.practical_planning, UserIntent.activity_request =>
    some ConversationState.activity_discovery
  | ConversationState.practical_planning, UserIntent.destination_inquiry =>
    some ConversationState.recommendation_refinement
  | ConversationState.context_enrichment, UserIntent.activity_request =>
    some ConversationState.activity_discovery
  | ConversationState.context_enrichment, UserIntent.destination_inquiry =>
    some ConversationState.recommendation_refinement
  | _, _ => none

/-- `StateManager.determine_next_state`. -/
def determine_next_state (current_state : ConversationState) (intents : List UserIntent)
    (context : ConversationContext) : ConversationState :=
  match intents with
  | [] => current_state
  | primary_intent :: _ =>
    match STATE_TRANSITIONS current_state primary_intent with
    | some next => next
    | none =>
      if context.conversation_depth > 8 then ConversationState.recommendation_refinement
      else
        match primary_intent with
        | UserIntent.destination_inquiry => ConversationState.destination_planning
        | UserIntent.activity_request => ConversationState.activity_discovery
        | UserIntent.practical_advice => ConversationState.practical_planning
        | UserIntent.budget_planning => ConversationState.practical_planning
        | _ => ConversationState.context_enrichment

/-- The six conversation states. -/
def allStates : List ConversationState :=
  [ConversationState.greeting, ConversationState.destination_planning,
   ConversationState.activity_discovery, ConversationState.practical_planning,
   ConversationState.context_enrichment, ConversationState.recommendation_refinement]

/-! ### `ConversationEngine` preference tracking and message processing -/

def landscape_preference_words : List String :=
  ["landscape", "photography", "incredible landscapes"]

def solo_preference_words : List String := ["solo", "first", "alone", "overwhelmed"]

def known_destinations : List String :=
  ["iceland", "banff", "new zealand", "norway", "patagonia", "dolomites",
   "paris", "tokyo", "new york", "london", "barcelona"]

def landscape_destinations : List String :=
  ["iceland", "banff", "new zealand", "norway", "patagonia", "dolomites"]

def city_destinations : List String :=
  ["paris", "tokyo", "new york", "london", "barcelona"]

/-- `ConversationEngine._validate_destination_relevance`. -/
def validate_destination_relevance (destination : String) (interests : List String) : Bool :=
  if interests.isEmpty then true
  else if "landscape_photography" ∈ interests && strLower destination ∈ city_destinations then
    false
  else true

/-- `ConversationEngine._track_user_preferences` (an empty
`current_destination` string never occurs, so Python falsiness of the
field is `Option.isNone`). -/
def track_user_preferences (session : ConversationSession) (message : String) :
    ConversationSession :=
  let message_lower := strLower message
  let context := session.context
  let context :=
    if landscape_preference_words.any (fun word => substrIn word message_lower) then
      if "landscape_photography" ∉ context.interests then
        { context with interests := context.interests ++ ["landscape_photography"] }
      else context
    else context
  let context :=
    if solo_preference_words.any (fun word => substrIn word message_lower) then
      if "solo_travel" ∉ context.interests then
        { context with interests := context.interests ++ ["solo_travel"] }
      else context
    else context
  let context :=
    match known_destinations.find? (fun dest =>
        substrIn dest message_lower && context.current_destination.isNone
          && validate_destination_relevance dest context.interests) with
    | some dest => { context with current_destination := some (pyTitle dest) }
    | none => context
  { session with context := context }

/-- `ConversationEngine.process_message` on an existing session. -/
def process_message (o : ReOracle) (session : ConversationSession) (message : String) :
    ConversationSession × List UserIntent :=
  let session :=
    { session with messages :=
        session.messages ++ [{ role := MessageRole.user, content := message }] }
  let session := track_user_preferences session message
  let intents := detect_intents o message session.context
  let session := { session with detected_intents := intents }
  let session := { session with context := update_context o session.context message }
  let session := { session with state := determine_next_state session.state intents session.context }
  (session, intents)

/-- N successive `process_message` calls on one session. -/
def process_messages (o : ReOracle) (session : ConversationSession) (msgs : List String) :
    ConversationSession :=
  msgs.foldl (fun s m => (process_message o s m).1) session

/-- N successive `update_context` calls on one context. -/
def update_contexts (o : ReOracle) (context : ConversationContext) (msgs : List String) :
    ConversationContext :=
  msgs.foldl (fun c m => update_context o c m) context

/-! ### `PsychologicalProfiler` -/

/-- `TRAVELER_ARCHETYPES`: archetype, keywords, anti-keywords. -/
def TRAVELER_ARCHETYPES : List (String × List String × List String) :=
  [("Explorer", (["adventure", "explore", "discover", "unknown", "off-beaten", "remote"],
                 ["familiar", "safe", "predictable", "crowded"])),
   ("Connoisseur", (["authentic", "local", "culture", "history", "art", "cuisine", "wine", "craft"],
                    ["tourist", "mainstream", "commercial"])),
   ("Connector", (["people", "locals", "community", "social", "friends", "meet", "interact"],
                  ["alone", "solo", "quiet"])),
   ("Creator", (["photography", "art", "workshop", "learn", "create", "inspire", "document"],
                ["passive", "just looking"])),
   ("Seeker", (["spiritual", "meaning", "growth", "transform", "mindful", "reflection", "meditation"],
               ["party", "nightlife", "busy"]))]

def keywordCountSum (text : String) (keywords : List String) : Nat :=
  keywords.foldl (fun s keyword => s + countOcc text keyword) 0

/-- Python `max(scores.keys(), key=lambda k: scores[k])`: the first entry
with the maximal score wins ties. -/
def pickMaxName (scores : List (String × Int)) (default : String) : String :=
  match scores with
  | [] => default
  | x :: xs => (xs.foldl (fun best y => if y.2 > best.2 then y else best) x).1

/-- `PsychologicalProfiler._detect_archetype`. -/
def detect_archetype (text : String) : String :=
  let scores := TRAVELER_ARCHETYPES.map (fun a =>
    (a.1, max 0 ((keywordCountSum text a.2.1 : Int) * 2 - (keywordCountSum text a.2.2 : Int))))
  if scores.any (fun p => !(p.2 == 0)) then pickMaxName scores "Explorer" else "Explorer"

def energy_patterns : List (String × List String) :=
  [("Steady", ["consistent", "daily", "routine", "regular", "plan", "schedule"]),
   ("Burst", ["intense", "full-day", "packed", "maximize", "everything"]),
   ("Adaptive", ["flexible", "spontaneous", "depends", "maybe", "see how"]),
   ("Low-key", ["relaxed", "slow", "casual", "easy", "comfortable"])]

/-- `PsychologicalProfiler._detect_energy_pattern`. -/
def detect_energy_pattern (text : String) : String :=
  let scores := energy_patterns.map (fun p => (p.1, (keywordCountSum text p.2 : Int)))
  if scores.any (fun p => !(p.2 == 0)) then pickMaxName scores "Adaptive" else "Adaptive"

def decision_patterns : List (String × List String) :=
  [("Analytical", ["research", "compare", "data", "reviews", "details", "facts"]),
   ("Intuitive", ["feel", "sense", "vibe", "instinct", "drawn to", "speaks to"]),
   ("Collaborative", ["partner", "group", "family", "together", "we", "us"]),
   ("Decisive", ["decided", "booked", "confirmed", "definitely", "sure"])]

/-- `PsychologicalProfiler._detect_decision_style`. -/
def detect_decision_style (text : String) : String :=
  let scores := decision_patterns.map (fun p => (p.1, (keywordCountSum text p.2 : Int)))
  if scores.any (fun p => !(p.2 == 0)) then pickMaxName scores "Intuitive" else "Intuitive"

/-- `PsychologicalProfiler._analyze_communication`. -/
def analyze_communication (messages : List Message) : String :=
  let user_messages := messages.filter (fun m => m.role == MessageRole.user)
  if user_messages.isEmpty then "Direct"
  else
    let avg_length : ℚ :=
      ((user_messages.foldl (fun s m => s + m.content.length) 0 : Nat) : ℚ) /
        (user_messages.length : ℚ)
    let question_frac : ℚ :=
      ((user_messages.filter (fun m => substrIn "?" m.content)).length : ℚ) /
        (user_messages.length : ℚ)
    if avg_length > 100 ∧ question_frac > 3/10 then "Detailed-Inquiring"
    else if avg_length < 50 then "Concise-Direct"
    else if question_frac > 1/2 then "Question-Heavy"
    else "Conversational"

def motivation_patterns : List (String × List String) :=
  [("Adventure", ["adventure", "thrill", "excitement", "adrenaline"]),
   ("Learning", ["learn", "understand", "history", "culture", "knowledge"]),
   ("Relaxation", ["relax", "unwind", "peaceful", "calm", "spa"]),
   ("Connection", ["connect", "meet", "people", "social", "community"]),
   ("Status", ["luxury", "exclusive", "premium", "prestigious", "VIP"]),
   ("Authenticity", ["authentic", "real", "local", "traditional", "genuine"])]

/-- `PsychologicalProfiler._extract_motivations`. -/
def extract_motivations (text : String) : List String :=
  let motivations := motivation_patterns.foldl
    (fun motivations p =>
      if p.2.any (fun keyword => substrIn keyword text) then motivations ++ [p.1]
      else motivations)
    []
  if motivations.isEmpty then ["Adventure"] else motivations

def high_risk_indicators : List String := ["adventure", "challenge", "extreme", "dangerous", "risky"]

def low_risk_indicators : List String := ["safe", "secure", "comfortable", "familiar", "easy"]

/-- `PsychologicalProfiler._assess_risk_tolerance`. -/
def assess_risk_tolerance (text : String) : String :=
  let high_score := keywordCountSum text high_risk_indicators
  let low_score := keywordCountSum text low_risk_indicators
  if high_score > low_score * 2 then "High"
  else if low_score > high_score * 2 then "Low"
  else "Moderate"

def life_stage_indicators : List (String × List String) :=
  [("Young-Professional", ["career", "work", "job", "networking", "professional"]),
   ("Family", ["family", "kids", "children", "parents", "together"]),
   ("Couple", ["partner", "boyfriend", "girlfriend", "husband", "wife", "together"]),
   ("Solo-Explorer", ["solo", "alone", "myself", "independent"]),
   ("Retiree", ["retirement", "golden years", "finally", "time"])]

/-- `PsychologicalProfiler._detect_life_stage`. -/
def detect_life_stage (text : String) : String :=
  match life_stage_indicators.find? (fun p => p.2.any (fun keyword => substrIn keyword text)) with
  | some p => p.1
  | none => "General"

def formal_indicators : List String := ["would like", "could you please", "I would appreciate"]

def casual_indicators : List String := ["gonna", "wanna", "yeah", "cool", "awesome"]

/-- `PsychologicalProfiler._infer_cultural_background`. -/
def infer_cultural_background (text : String) : String :=
  let formal_score := keywordCountSum text formal_indicators
  let casual_score := keywordCountSum text casual_indicators
  if formal_score > casual_score then "Formal-Traditional"
  else if casual_score > formal_score then "Casual-Modern"
  else "Balanced"

structure PsychProfile where
  traveler_archetype : String
  energy_signature : String
  decision_pattern : String
  communication_style : String
  motivation_drivers : String
  risk_tolerance : String
  life_stage_clues : String
  cultural_context : String
deriving DecidableEq, Repr

/-- `PsychologicalProfiler.analyze_user_psychology`. -/
def analyze_user_psychology (messages : List Message) : PsychProfile :=
  let all_text := String.intercalate " "
    ((messages.filter (fun m => m.role == MessageRole.user)).map (fun m => strLower m.content))
  { traveler_archetype := detect_archetype all_text
    energy_signature := detect_energy_pattern all_text
    decision_pattern := detect_decision_style all_text
    communication_style := analyze_communication messages
    motivation_drivers := String.intercalate ", " (extract_motivations all_text)
    risk_tolerance := assess_risk_tolerance all_text
    life_stage_clues := detect_life_stage all_text
    cultural_context := infer_cultural_background all_text }

/-- The default profile produced when no user text is available. -/
def defaultPsychProfile : PsychProfile :=
  { traveler_archetype := "Explorer"
    energy_signature := "Adaptive"
    decision_pattern := "Intuitive"
    communication_style := "Direct"
    motivation_drivers := "Adventure"
    risk_tolerance := "Moderate"
    life_stage_clues := "General"
    cultural_context := "Balanced" }

/-! ### `SmartContextManager` conversation memory -/

/-- One `quality_trends` entry (the wall-clock timestamp of the source
dict is not modelled). -/
structure QualityPoint where
  engagement : ℚ
  relevance : ℚ
deriving DecidableEq, Repr

/-- The per-session memory record of
`SmartContextManager._update_conversation_memory`; `decisions_made`
keeps the decision message (its timestamp is not modelled), and the
unused `user_preferences` / `conversation_flow` fields are omitted. -/
structure ConversationMemory where
  topics_discussed : List String := []
  decisions_made : List String := []
  quality_trends : List QualityPoint := []
deriving DecidableEq, Repr

def decision_phrase_words : List String := ["decided", "booked", "will go", "planning to"]

/-- `SmartContextManager._update_conversation_memory`; `topics` stands
for the `_extract_topics(user_msg + " " + ai_response)` result, whose
regex scoring is abstracted here. -/
def update_conversation_memory (memory : ConversationMemory) (topics : List String)
    (user_msg : String) (qp : QualityPoint) : ConversationMemory :=
  let memory := { memory with topics_discussed := memory.topics_discussed ++ topics }
  let memory :=
    if decision_phrase_words.any (fun word => substrIn word (strLower user_msg)) then
      { memory with decisions_made := memory.decisions_made ++ [user_msg] }
    else memory
  let memory := { memory with quality_trends := memory.quality_trends ++ [qp] }
  let memory :=
    if memory.topics_discussed.length > 20 then
      { memory with topics_discussed :=
          memory.topics_discussed.drop (memory.topics_discussed.length - 15) }
    else memory
  if memory.quality_trends.length > 50 then
    { memory with quality_trends :=
        memory.quality_trends.drop (memory.quality_trends.length - 30) }
  else memory

/-! ### `app/core/error_recovery.py` -/

inductive ErrorType
  | api_timeout
  | api_rate_limit
  | invalid_response
  | context_confusion
  | intent_ambiguity
  | data_unavailable
  | user_frustration
  | system_overload
deriving DecidableEq, Repr

inductive RecoveryStrategy
  | graceful_fallback
  | context_reset
  | clarification_request
  | alternative_path
  | escalation
  | learning_opportunity
deriving DecidableEq, Repr

/-- `ErrorPattern.USER_FRUSTRATION_INDICATORS` (verbatim, including the
capital letters that can never match a lower-cased message). -/
def USER_FRUSTRATION_INDICATORS : List String :=
  ["this doesn't help", "not what I asked", "you don't understand",
   "this is wrong", "that's not helpful", "I already told you",
   "you're not listening", "this is confusing", "start over",
   "why this long", "too verbose", "too much text", "keep it short"]

def CONTEXT_CONFUSION_INDICATORS : List String :=
  ["what are we talking about", "I'm lost", "can we start over",
   "I don't follow", "that doesn't make sense", "completely off topic"]

def INTENT_AMBIGUITY_INDICATORS : List String :=
  ["I meant", "actually", "no, I was asking about", "that's not what I",
   "let me clarify", "I'm looking for", "I need help with"]

def wordSet (s : String) : List String := firstDedup (pySplit s)

/-- `ConversationRecoveryEngine._calculate_message_similarity`. -/
def calculate_message_similarity (msg1 msg2 : String) : ℚ :=
  let words1 := wordSet msg1
  let words2 := wordSet msg2
  if words1.isEmpty || words2.isEmpty then 0
  else
    let intersection := (words1.filter (fun w => w ∈ words2)).length
    let union := (firstDedup (words1 ++ words2)).length
    if union > 0 then (intersection : ℚ) / (union : ℚ) else 0

/-- `ConversationRecoveryEngine._calculate_message_relevance`. -/
def calculate_message_relevance (user_msg ai_msg : String) : ℚ :=
  let user_words := wordSet user_msg
  let ai_words := wordSet ai_msg
  if user_words.isEmpty || ai_words.isEmpty then 0
  else ((user_words.filter (fun w => w ∈ ai_words)).length : ℚ) / (user_words.length : ℚ)

/-- `ConversationRecoveryEngine._calculate_frustration_score`; rational
arithmetic mirrors the float accumulation of the source on every input
used below. -/
def calculate_frustration_score (user_msg_lower : String) (session : ConversationSession) : ℚ :=
  let score : ℚ :=
    ((USER_FRUSTRATION_INDICATORS.filter (fun ind => substrIn ind user_msg_lower)).length : ℚ)
      * (3/10)
  let score :=
    if session.messages.length > 4 then
      let recent_user_messages :=
        ((session.messages.drop (session.messages.length - 4)).filter
            (fun m => m.role == MessageRole.user)).map (fun m => strLower m.content)
      score +
        (((recent_user_messages.dropLast).filter
            (fun msg => calculate_message_similarity msg user_msg_lower > 7/10)).length : ℚ)
          * (2/10)
    else score
  let caps_count := (user_msg_lower.data.filter (fun ch => isUpperA ch)).length
  let score :=
    if (caps_count : ℚ) / ((max user_msg_lower.length 1 : Nat) : ℚ) > 3/10 then score + 2/10
    else score
  let score :=
    if substrIn "!!!" user_msg_lower || substrIn "???" user_msg_lower then score + 1/10 else score
  min score 1

/-- `ConversationRecoveryEngine._calculate_confusion_score`. -/
def calculate_confusion_score (user_msg_lower : String) (session : ConversationSession) : ℚ :=
  let score : ℚ :=
    ((CONTEXT_CONFUSION_INDICATORS.filter (fun ind => substrIn ind user_msg_lower)).length : ℚ)
      * (4/10)
  let score :=
    if session.messages.length > 2 then
      let last_ai_msg :=
        ((session.messages.reverse.find? (fun m => m.role == MessageRole.assistant)).map
          Message.content).getD ""
      if calculate_message_relevance user_msg_lower (strLower last_ai_msg) < 2/10 then
        score + 3/10
      else score
    else score
  min score 1

def vague_terms : List String := ["something", "anything", "whatever", "some", "kind of", "sort of"]

/-- `ConversationRecoveryEngine._calculate_ambiguity_score`. -/
def calculate_ambiguity_score (user_msg_lower : String) : ℚ :=
  let score : ℚ :=
    ((INTENT_AMBIGUITY_INDICATORS.filter (fun ind => substrIn ind user_msg_lower)).length : ℚ)
      * (3/10)
  let vague_count := (vague_terms.filter (fun term => substrIn term user_msg_lower)).length
  let score := score + min ((vague_count : ℚ) * (1/10)) (3/10)
  let question_count := (user_msg_lower.data.filter (fun ch => ch == '?')).length
  let score := if question_count > 2 then score + 2/10 else score
  min score 1

def generic_phrases : List String :=
  ["I'd be happy to help", "Great question", "Let me help you with that",
   "There are many options", "It depends on", "That's a good point"]

/-- `ConversationRecoveryEngine._detect_response_issues`. -/
def detect_response_issues (ai_response user_message : String) : List (ErrorType × ℚ) :=
  let issues : List (ErrorType × ℚ) := []
  let issues :=
    if user_message.length > 100 ∧ ai_response.length < 50 then
      issues ++ [(ErrorType.invalid_response, 7/10)]
    else issues
  let generic_count :=
    (generic_phrases.filter (fun phrase => substrIn (strLower phrase) (strLower ai_response))).length
  if generic_count > 2 then issues ++ [(ErrorType.invalid_response, 1/2)] else issues

/-- `ConversationRecoveryEngine.detect_conversation_issues`. -/
def detect_conversation_issues (user_message : String) (session : ConversationSession)
    (ai_response : Option String) : List (ErrorType × ℚ) :=
  let user_msg_lower := strLower user_message
  let detected_issues : List (ErrorType × ℚ) := []
  let frustration_score := calculate_frustration_score user_msg_lower session
  let detected_issues :=
    if frustration_score > 6/10 then
      detected_issues ++ [(ErrorType.user_frustration, frustration_score)]
    else detected_issues
  let confusion_score := calculate_confusion_score user_msg_lower session
  let detected_issues :=
    if confusion_score > 1/2 then
      detected_issues ++ [(ErrorType.context_confusion, confusion_score)]
    else detected_issues
  let ambiguity_score := calculate_ambiguity_score user_msg_lower
  let detected_issues :=
    if ambiguity_score > 2/5 then
      detected_issues ++ [(ErrorType.intent_ambiguity, ambiguity_score)]
    else detected_issues
  match ai_response with
  | some response => detected_issues ++ detect_response_issues response user_message
  | none => detected_issues

/-- `ConversationRecoveryEngine._select_recovery_strategy` (the session
argument of the source never influences the result). -/
def select_recovery_strategy (error_type : ErrorType) (confidence : ℚ) : RecoveryStrategy :=
  if confidence > 8/10 && error_type == ErrorType.user_frustration then
    RecoveryStrategy.escalation
  else if confidence > 8/10 && error_type == ErrorType.context_confusion then
    RecoveryStrategy.context_reset
  else if confidence > 1/2 then RecoveryStrategy.clarification_request
  else RecoveryStrategy.graceful_fallback

/-! ### Concrete oracles used in witnesses and counterexamples

Each oracle records exactly what the Python regexes answer on the cited
messages; a reviewer can re-run the source patterns by hand on them. -/

/-- The oracle for the empty message: no explicit or implicit intent
pattern matches `""`, `re.findall` over the destination patterns captures
nothing, and no budget or date pattern matches. -/
def oracleNone : ReOracle :=
  { search := fun _ _ => false
    destMatches := fun _ => []
    budgetMatch := fun _ => none
    dateMatch := fun _ => none }

/-- Raw destination captures for the messages `visit X` used below: of
the ten `DESTINATION_PATTERNS` only the first (travel-verb pattern,
`visit ([A-Z][a-z]+ ...)`) fires, capturing exactly `X`. -/
def visitSeqMatches : String → List String := fun m =>
  if m = "visit Iceland" then ["Iceland"]
  else if m = "visit Norway" then ["Norway"]
  else if m = "visit Patagonia" then ["Patagonia"]
  else if m = "visit Banff" then ["Banff"]
  else if m = "visit Tokyo" then ["Tokyo"]
  else []

/-- Oracle for the `visit X` message sequence.  `update_context` never
consults the `search` field, and none of these messages contains a
budget or date pattern token. -/
def oracleVisit : ReOracle :=
  { search := fun _ _ => false
    destMatches := visitSeqMatches
    budgetMatch := fun _ => none
    dateMatch := fun _ => none }

/-- Raw destination captures for `"I want to visit Paris"`: only the
first destination pattern fires (`visit ([A-Z][a-z]+ ...)`), capturing
`Paris` (uppercase-start groups cannot match `I`, `want` or `to`). -/
def parisMatches : String → List String := fun m =>
  if m = "I want to visit Paris" then ["Paris"] else []

/-- Oracle family for `"I want to visit Paris"`: the intent-pattern
answers are irrelevant to the destination bookkeeping, so they stay a
parameter; the message contains no budget or date pattern token. -/
def mkParisOracle (search : Nat → String → Bool) : ReOracle :=
  { search := search
    destMatches := parisMatches
    budgetMatch := fun _ => none
    dateMatch := fun _ => none }

/-- A variant of `oracleVisit` whose every other answer differs: used to
witness that destination extraction depends only on the destination
captures. -/
def oracleVisitVariant : ReOracle :=
  { oracleVisit with search := fun _ _ => true }

/-! ## Theorems

Helper lemmas first, then one theorem per claim (with witnesses and
counterexamples where required). -/

theorem toNat_ofNat_valid {n : Nat} (h : n.isValidChar) : (Char.ofNat n).toNat = n := by
  rw [Char.ofNat, dif_pos h]
  rfl

theorem toNat_upperChar (c : Char) :
    (upperChar c).toNat = if 97 ≤ c.toNat ∧ c.toNat ≤ 122 then c.toNat - 32 else c.toNat := by
  rw [upperChar, isLowerA]
  by_cases h : 97 ≤ c.toNat ∧ c.toNat ≤ 122
  · rw [if_pos (decide_eq_true h), if_pos h, toNat_ofNat_valid]
    exact Or.inl (by omega)
  · rw [if_neg, if_neg h]
    simp [h]

theorem toNat_lowerChar (c : Char) :
    (lowerChar c).toNat = if 65 ≤ c.toNat ∧ c.toNat ≤ 90 then c.toNat + 32 else c.toNat := by
  rw [lowerChar, isUpperA]
  by_cases h : 65 ≤ c.toNat ∧ c.toNat ≤ 90
  · rw [if_pos (decide_eq_true h), if_pos h, toNat_ofNat_valid]
    exact Or.inl (by omega)
  · rw [if_neg, if_neg h]
    simp [h]

theorem char_toNat_inj {a b : Char} (h : a.toNat = b.toNat) : a = b :=
  Char.ext (UInt32.toNat.inj h)

theorem isAlphaA_upperChar (c : Char) : isAlphaA (upperChar c) = isAlphaA c := by
  rw [isAlphaA, isAlphaA, isUpperA, isUpperA, isLowerA, isLowerA, toNat_upperChar c]
  rw [Bool.eq_iff_iff]
  simp only [Bool.or_eq_true, decide_eq_true_eq]
  split_ifs <;> omega

theorem isAlphaA_lowerChar (c : Char) : isAlphaA (lowerChar c) = isAlphaA c := by
  rw [isAlphaA, isAlphaA, isUpperA, isUpperA, isLowerA, isLowerA, toNat_lowerChar c]
  rw [Bool.eq_iff_iff]
  simp only [Bool.or_eq_true, decide_eq_true_eq]
  split_ifs <;> omega

theorem upperChar_upperChar (c : Char) : upperChar (upperChar c) = upperChar c := by
  apply char_toNat_inj
  rw [toNat_upperChar (upperChar c), toNat_upperChar c]
  split_ifs <;> omega

theorem lowerChar_lowerChar (c : Char) : lowerChar (lowerChar c) = lowerChar c := by
  apply char_toNat_inj
  rw [toNat_lowerChar (lowerChar c), toNat_lowerChar c]
  split_ifs <;> omega

theorem isAlphaA_caseForTitle (b : Bool) (c : Char) :
    isAlphaA (caseForTitle b c) = isAlphaA c := by
  cases b <;> simp [caseForTitle, isAlphaA_upperChar, isAlphaA_lowerChar]

theorem caseForTitle_idem (b : Bool) (c : Char) :
    caseForTitle b (caseForTitle b c) = caseForTitle b c := by
  cases b <;> simp [caseForTitle, upperChar_upperChar, lowerChar_lowerChar]

theorem checkTitleAux_pyTitleAux (l : List Char) :
    ∀ b, checkTitleAux b (pyTitleAux b l) = true := by
  induction l with
  | nil => intro b; rfl
  | cons c cs ih =>
    intro b
    rw [pyTitleAux, checkTitleAux, isAlphaA_caseForTitle, caseForTitle_idem]
    simp [ih]

/-- The output of `str.title` is title-cased. -/
theorem isTitleCased_pyTitle (s : String) : isTitleCased (pyTitle s) = true := by
  rw [isTitleCased, pyTitle]
  exact checkTitleAux_pyTitleAux s.data false

theorem strLower_length (s : String) : (strLower s).length = s.length := by
  show (s.data.map lowerChar).length = s.data.length
  exact List.length_map s.data lowerChar

theorem trimList_sublist (l : List Char) : (trimList l).Sublist l := by
  have h2 : ((l.dropWhile isSpaceA).reverse.dropWhile isSpaceA).Sublist
      (l.dropWhile isSpaceA).reverse := List.dropWhile_sublist _
  have h3 := h2.reverse
  rw [List.reverse_reverse] at h3
  exact h3.trans (List.dropWhile_sublist _)

theorem trimStr_length_le (s : String) : (trimStr s).length ≤ s.length :=
  (trimList_sublist s.data).length_le

theorem foldlDedup_ne_nil {α : Type} [DecidableEq α] (l : List α) (acc : List α)
    (h : acc ≠ []) : l.foldl (fun acc x => if x ∈ acc then acc else acc ++ [x]) acc ≠ [] := by
  induction l generalizing acc with
  | nil => exact h
  | cons x xs ih =>
    rw [List.foldl_cons]
    by_cases hx : x ∈ acc
    · rw [if_pos hx]
      exact ih acc h
    · rw [if_neg hx]
      exact ih (acc ++ [x]) (by simp)

theorem firstDedup_ne_nil {α : Type} [DecidableEq α] (l : List α) (h : l ≠ []) :
    firstDedup l ≠ [] := by
  match l with
  | x :: xs =>
    rw [firstDedup, List.foldl_cons]
    rw [if_neg (List.not_mem_nil x)]
    exact foldlDedup_ne_nil xs [x] (by simp)

theorem defaultAppend_ne_nil (l : List UserIntent) (x : UserIntent) :
    (if l.isEmpty then l ++ [x] else l) ≠ [] := by
  by_cases h : l.isEmpty
  · rw [if_pos h]
    simp_all
  · rw [if_neg h]
    simp_all [List.isEmpty_eq_false]

/-- Claim C1.  `detect_intents` never returns an empty list; and when no
pattern (explicit or implicit) matches the lower-cased message — the
empty message included — it returns exactly one default intent:
ActivityRequest when a destination is established, DestinationInquiry
otherwise. -/
theorem claim_C1_detect_intents_default :
    (∀ (o : ReOracle) (message : String) (context : ConversationContext),
        detect_intents o message context ≠ []) ∧
    (∀ (o : ReOracle) (message : String) (context : ConversationContext),
        (∀ pid : Nat, o.search pid (strLower message) = false) →
        detect_intents o message context =
          [if context.current_destination.isSome then UserIntent.activity_request
           else UserIntent.destination_inquiry]) := by
  constructor
  · intro o message context
    simp only [detect_intents]
    apply firstDedup_ne_nil
    apply defaultAppend_ne_nil
  · intro o message context h
    simp only [detect_intents, h]
    cases hc : context.current_destination.isSome <;>
      simp [INTENT_PATTERNS, mkPatternIds, firstDedup]

/-- Witness for claim C1: the all-false oracle on the empty message
yields the context-dependent default intent. -/
theorem claim_C1_witness :
    detect_intents oracleNone "" { session_id := "w1" } = [UserIntent.destination_inquiry] ∧
    detect_intents oracleNone ""
        { session_id := "w1", current_destination := some "Tokyo" }
      = [UserIntent.activity_request] := by
  constructor
  · exact claim_C1_detect_intents_default.2 oracleNone "" { session_id := "w1" }
      (fun _ => rfl)
  · exact claim_C1_detect_intents_default.2 oracleNone ""
      { session_id := "w1", current_destination := some "Tokyo" } (fun _ => rfl)

theorem track_user_preferences_context_depth (s : ConversationSession) (m : String) :
    (track_user_preferences s m).context.conversation_depth = s.context.conversation_depth := by
  unfold track_user_preferences
  dsimp only
  split <;> split_ifs <;> rfl

theorem update_context_depth (o : ReOracle) (ctx : ConversationContext) (m : String) :
    (update_context o ctx m).conversation_depth = ctx.conversation_depth + 1 := by
  unfold update_context
  rcases hdest : extract_destinations o m with _ | ⟨d, rest⟩ <;>
    rcases hb : o.budgetMatch m with _ | b <;>
    rcases hdt : o.dateMatch m with _ | dt <;>
    simp [hdest, hb, hdt]

theorem process_message_depth (o : ReOracle) (s : ConversationSession) (m : String) :
    ((process_message o s m).1).context.conversation_depth
      = s.context.conversation_depth + 1 := by
  unfold process_message
  dsimp only
  rw [update_context_depth, track_user_preferences_context_depth]

/-- Claim C2.  `update_context` increments `conversation_depth` by exactly
one, `process_message` runs it exactly once per call, and after N
`process_message` calls on a fresh session the depth equals N. -/
theorem claim_C2_conversation_depth :
    (∀ (o : ReOracle) (context : ConversationContext) (message : String),
        (update_context o context message).conversation_depth
          = context.conversation_depth + 1) ∧
    (∀ (o : ReOracle) (session : ConversationSession) (message : String),
        ((process_message o session message).1).context.conversation_depth
          = session.context.conversation_depth + 1) ∧
    (∀ (o : ReOracle) (sid : String) (msgs : List String),
        (process_messages o (freshSession sid) msgs).context.conversation_depth
          = msgs.length) := by
  refine ⟨update_context_depth, process_message_depth, ?_⟩
  intro o sid msgs
  have key : ∀ (msgs : List String) (s : ConversationSession),
      (process_messages o s msgs).context.conversation_depth
        = s.context.conversation_depth + msgs.length := by
    intro msgs
    induction msgs with
    | nil => intro s; simp [process_messages]
    | cons m rest ih =>
      intro s
      show (process_messages o ((process_message o s m).1) rest).context.conversation_depth = _
      rw [ih, process_message_depth]
      simp [Nat.add_comm, Nat.add_assoc, Nat.add_left_comm]
  rw [key]
  simp [freshSession]

/-- Claim C3.  `determine_next_state` always returns one of the six
states; an empty intent list returns the current state unchanged; and a
transition-table miss with conversation depth above 8 forces
RecommendationRefinement regardless of the primary intent. -/
theorem claim_C3_next_state_total :
    (∀ (s : ConversationState) (intents : List UserIntent) (context : ConversationContext),
        determine_next_state s intents context ∈ allStates) ∧
    (∀ (s : ConversationState) (context : ConversationContext),
        determine_next_state s [] context = s) ∧
    (∀ (s : ConversationState) (primary : UserIntent) (rest : List UserIntent)
        (context : ConversationContext),
        STATE_TRANSITIONS s primary = none → context.conversation_depth > 8 →
        determine_next_state s (primary :: rest) context
          = ConversationState.recommendation_refinement) := by
  refine ⟨?_, ?_, ?_⟩
  · intro s intents context
    cases h : determine_next_state s intents context <;> simp [allStates]
  · intro s context
    rfl
  · intro s primary rest context hT hdepth
    unfold determine_next_state
    dsimp only
    rw [hT]
    dsimp only
    rw [if_pos hdepth]

/-- Witness for claim C3: in RecommendationRefinement (no table entries)
with depth 9, a WeatherCheck primary intent yields
RecommendationRefinement. -/
theorem claim_C3_witness :
    determine_next_state ConversationState.recommendation_refinement
      [UserIntent.weather_check] { session_id := "w3", conversation_depth := 9 }
      = ConversationState.recommendation_refinement :=
  claim_C3_next_state_total.2.2 ConversationState.recommendation_refinement
    UserIntent.weather_check [] { session_id := "w3", conversation_depth := 9 }
    rfl (by decide)

theorem update_context_previous_cases (o : ReOracle) (ctx : ConversationContext) (m : String) :
    (update_context o ctx m).previous_destinations = ctx.previous_destinations ∨
    ∃ cur, ctx.current_destination = some cur ∧ cur ∉ ctx.previous_destinations ∧
      (update_context o ctx m).previous_destinations
        = ctx.previous_destinations ++ [cur] := by
  unfold update_context
  rcases hdest : extract_destinations o m with _ | ⟨d, rest⟩
  · rcases hb : o.budgetMatch m with _ | b <;>
      rcases hdt : o.dateMatch m with _ | dt <;>
      simp [hb, hdt]
  · rcases hcur : ctx.current_destination with _ | cur
    · rcases hb : o.budgetMatch m with _ | b <;>
        rcases hdt : o.dateMatch m with _ | dt <;>
        simp [hb, hdt]
    · rcases hb : o.budgetMatch m with _ | b <;>
        rcases hdt : o.dateMatch m with _ | dt <;>
        simp only [hb, hdt] <;>
        split_ifs <;>
        simp_all

theorem update_context_previous_superseded (o : ReOracle) (ctx : ConversationContext)
    (m : String) (cur d : String) (rest : List String)
    (hcur : ctx.current_destination = some cur)
    (hdest : extract_destinations o m = d :: rest) (hne : cur ≠ d) :
    cur ∈ (update_context o ctx m).previous_destinations := by
  unfold update_context
  rcases hb : o.budgetMatch m with _ | b <;>
    rcases hdt : o.dateMatch m with _ | dt <;>
    simp only [hdest, hcur, hb, hdt] <;>
    split_ifs <;>
    simp_all

theorem update_context_previous_nodup (o : ReOracle) (ctx : ConversationContext) (m : String)
    (h : ctx.previous_destinations.Nodup) :
    (update_context o ctx m).previous_destinations.Nodup := by
  rcases update_context_previous_cases o ctx m with heq | ⟨cur, _, hmem, heq⟩
  · rw [heq]
    exact h
  · rw [heq, List.nodup_append]
    exact ⟨h, List.nodup_singleton cur, by simp [hmem]⟩

theorem update_contexts_previous_nodup (o : ReOracle) (ctx : ConversationContext)
    (msgs : List String) (h : ctx.previous_destinations.Nodup) :
    (update_contexts o ctx msgs).previous_destinations.Nodup := by
  induction msgs generalizing ctx with
  | nil => exact h
  | cons m rest ih =>
    show (update_contexts o (update_context o ctx m) rest).previous_destinations.Nodup
    exact ih (update_context o ctx m) (update_context_previous_nodup o ctx m h)

/-- Claim C4 counterexample: four successive destination switches leave
four entries in `previous_destinations` — no 3-entry cap exists in
`update_context` (each superseded destination does appear exactly
once). -/
theorem claim_C4_counterexample :
    (update_contexts oracleVisit { session_id := "c4" }
        ["visit Iceland", "visit Norway", "visit Patagonia", "visit Banff",
         "visit Tokyo"]).previous_destinations
      = ["Iceland", "Norway", "Patagonia", "Banff"] ∧
    ¬((update_contexts oracleVisit { session_id := "c4" }
        ["visit Iceland", "visit Norway", "visit Patagonia", "visit Banff",
         "visit Tokyo"]).previous_destinations.length ≤ 3) := by
  constructor <;> decide

/-- Claim C4 amended: a superseded current destination is recorded in
`previous_destinations` exactly once (the list stays duplicate-free),
but the list is unbounded — no cap of 3 is enforced by the context
update. -/
theorem claim_C4_amended_supersession :
    (∀ (o : ReOracle) (context : ConversationContext) (message : String),
        context.previous_destinations.Nodup →
        (update_context o context message).previous_destinations.Nodup) ∧
    (∀ (o : ReOracle) (context : ConversationContext) (msgs : List String),
        context.previous_destinations.Nodup →
        (update_contexts o context msgs).previous_destinations.Nodup) ∧
    (∀ (o : ReOracle) (context : ConversationContext) (message : String)
        (cur d : String) (rest : List String),
        context.previous_destinations.Nodup →
        context.current_destination = some cur →
        extract_destinations o message = d :: rest → cur ≠ d →
        ((update_context o context message).previous_destinations).count cur = 1) := by
  refine ⟨update_context_previous_nodup, update_contexts_previous_nodup, ?_⟩
  intro o context message cur d rest hnd hcur hdest hne
  exact List.count_eq_one_of_mem (update_context_previous_nodup o context message hnd)
    (update_context_previous_superseded o context message cur d rest hcur hdest hne)

/-- Witness for amended claim C4: superseding Iceland by Norway records
Iceland exactly once. -/
theorem claim_C4_witness :
    ((update_context oracleVisit
        { session_id := "w4", current_destination := some "Iceland" }
        "visit Norway").previous_destinations).count "Iceland" = 1 :=
  claim_C4_amended_supersession.2.2 oracleVisit
    { session_id := "w4", current_destination := some "Iceland" }
    "visit Norway" "Iceland" "Norway" [] List.nodup_nil rfl (by decide) (by decide)

/-- Claim C5 (code-bug evaluation): with interest
`landscape_photography` recorded and no city interest, processing
`"I want to visit Paris"` still sets `current_destination` to Paris —
`update_context` assigns the extracted destination without consulting
`_validate_destination_relevance` (whatever the intent regexes answer). -/
theorem claim_C5_city_destination_overwrites :
    ∀ (search : Nat → String → Bool),
      ((process_message (mkParisOracle search)
          { session_id := "c5",
            context := { session_id := "c5", interests := ["landscape_photography"] } }
          "I want to visit Paris").1).context.current_destination = some "Paris" := by
  intro search
  rfl

theorem destSieve_spec (message : String) :
    ∀ (l acc : List String), ∃ t,
      l.foldl (destSieveStep message) acc = acc ++ t ∧
      t.Sublist l ∧
      (∀ x ∈ t, validate_destination_context x message = true ∧
        is_likely_destination x message = true) ∧
      (acc.Nodup → (acc ++ t).Nodup) := by
  intro l
  induction l with
  | nil =>
    intro acc
    exact ⟨[], by simp, List.nil_sublist _, by simp, by simp⟩
  | cons x xs ih =>
    intro acc
    rw [List.foldl_cons]
    by_cases hv : validate_destination_context x message = true
    · by_cases hl : is_likely_destination x message = true
      · by_cases hmem : x ∈ acc
        · have hstep : destSieveStep message acc x = acc := by
            rw [destSieveStep, if_pos hv, if_pos hl, if_pos hmem]
          rw [hstep]
          obtain ⟨t, h1, h2, h3, h4⟩ := ih acc
          exact ⟨t, h1, h2.cons x, h3, h4⟩
        · have hstep : destSieveStep message acc x = acc ++ [x] := by
            rw [destSieveStep, if_pos hv, if_pos hl, if_neg hmem]
          rw [hstep]
          obtain ⟨t, h1, h2, h3, h4⟩ := ih (acc ++ [x])
          refine ⟨x :: t, ?_, h2.cons₂ x, ?_, ?_⟩
          · rw [h1, List.append_assoc]
            rfl
          · intro y hy
            rcases List.mem_cons.mp hy with hy | hy
            · rw [hy]
              exact ⟨hv, hl⟩
            · exact h3 y hy
          · intro hnd
            have hx : (acc ++ [x]).Nodup := by
              rw [List.nodup_append]
              exact ⟨hnd, List.nodup_singleton x, by simp [hmem]⟩
            have h5 := h4 hx
            rw [List.append_assoc] at h5
            exact h5
      · have hstep : destSieveStep message acc x = acc := by
          rw [destSieveStep, if_pos hv, if_neg hl]
        rw [hstep]
        obtain ⟨t, h1, h2, h3, h4⟩ := ih acc
        exact ⟨t, h1, h2.cons x, h3, h4⟩
    · have hstep : destSieveStep message acc x = acc := by
        rw [destSieveStep, if_neg hv]
      rw [hstep]
      obtain ⟨t, h1, h2, h3, h4⟩ := ih acc
      exact ⟨t, h1, h2.cons x, h3, h4⟩

theorem is_likely_destination_props (dest message : String)
    (h : is_likely_destination dest message = true) :
    3 ≤ dest.length ∧ firstIsUpper dest = true ∧
      dest.data.all (fun ch => !isDigitA ch) = true := by
  simp only [is_likely_destination] at h
  split_ifs at h with h1 h2 h3 h4 h5 h6 h7 h8
  refine ⟨?_, ?_, ?_⟩
  · have hle := trimStr_length_le (strLower dest)
    rw [strLower_length] at hle
    omega
  · simpa using h6
  · rw [List.all_eq_true]
    intro ch hch
    simp only [List.any_eq_true, not_exists, not_and] at h7
    simp [h7 ch hch]

/-- Claim C6.  For every raw capture list and message,
`extract_destinations` returns at most 5 candidates, without duplicates,
as an in-order sublist of the cleaned candidates; and every returned
candidate is title-cased, at least 3 characters long, digit-free, and
starts with a capital letter. -/
theorem claim_C6_extract_destinations_shape :
    ∀ (raw : List String) (message : String),
      (extract_destinations_from raw message).length ≤ 5 ∧
      (extract_destinations_from raw message).Nodup ∧
      (extract_destinations_from raw message).Sublist (raw.map cleanCand) ∧
      ∀ dest ∈ extract_destinations_from raw message,
        isTitleCased dest = true ∧ 3 ≤ dest.length ∧
        dest.data.all (fun ch => !isDigitA ch) = true ∧ firstIsUpper dest = true := by
  intro raw message
  obtain ⟨t, h1, h2, h3, h4⟩ := destSieve_spec message (raw.map cleanCand) []
  have hr : extract_destinations_from raw message = t.take 5 := by
    rw [extract_destinations_from, h1]
    rfl
  have ht : t.Nodup := by simpa using h4 List.nodup_nil
  refine ⟨?_, ?_, ?_, ?_⟩
  · rw [hr]
    simp [List.length_take]
  · rw [hr]
    exact (List.take_sublist 5 t).nodup ht
  · rw [hr]
    exact (List.take_sublist 5 t).trans h2
  · intro dest hdest
    rw [hr] at hdest
    have hmem_t : dest ∈ t := (List.take_sublist 5 t).subset hdest
    have hprops := h3 dest hmem_t
    have hmap : dest ∈ raw.map cleanCand := h2.subset hmem_t
    obtain ⟨d0, _, hd0⟩ := List.mem_map.mp hmap
    obtain ⟨hlen, hupper, hdigit⟩ :=
      is_likely_destination_props dest message hprops.2
    refine ⟨?_, hlen, hdigit, hupper⟩
    rw [← hd0]
    exact isTitleCased_pyTitle (trimStr d0)

/-- Witness for claim C6 at the raw capture `Iceland` of
`"visit Iceland"`. -/
theorem claim_C6_witness :
    (extract_destinations_from ["Iceland"] "visit Iceland").length ≤ 5 ∧
    (isTitleCased "Iceland" = true ∧ 3 ≤ "Iceland".length ∧
      "Iceland".data.all (fun ch => !isDigitA ch) = true ∧
      firstIsUpper "Iceland" = true) :=
  ⟨(claim_C6_extract_destinations_shape ["Iceland"] "visit Iceland").1,
   (claim_C6_extract_destinations_shape ["Iceland"] "visit Iceland").2.2.2 "Iceland"
     (by decide)⟩

/-- Claim C7.  `extract_destinations` is a pure function of the message:
its result is fully determined by the raw destination captures for that
message, independently of every other oracle answer and of any prior
call. -/
theorem claim_C7_extract_destinations_deterministic :
    ∀ (o1 o2 : ReOracle) (message : String),
      o1.destMatches message = o2.destMatches message →
      extract_destinations o1 message = extract_destinations o2 message := by
  intro o1 o2 message h
  unfold extract_destinations
  rw [h]

/-- Witness for claim C7: two oracles differing in every intent-pattern
answer extract the same destinations from `"visit Iceland"`. -/
theorem claim_C7_witness :
    extract_destinations oracleVisit "visit Iceland"
      = extract_destinations oracleVisitVariant "visit Iceland" :=
  claim_C7_extract_destinations_deterministic oracleVisit oracleVisitVariant
    "visit Iceland" rfl

theorem frustration_score_concrete :
    calculate_frustration_score (strLower "this is confusing, I already told you")
      (freshSession "c8") = 3/10 := by
  simp only [calculate_frustration_score]
  have h1 : (USER_FRUSTRATION_INDICATORS.filter
      (fun ind => substrIn ind (strLower "this is confusing, I already told you"))).length
        = 1 := by decide
  have h2 : ((strLower "this is confusing, I already told you").data.filter
      (fun ch => isUpperA ch)).length = 0 := by decide
  have h3 : (strLower "this is confusing, I already told you").length = 37 := by decide
  have h4 : substrIn "!!!" (strLower "this is confusing, I already told you") = false := by
    decide
  have h5 : substrIn "???" (strLower "this is confusing, I already told you") = false := by
    decide
  have h6 : (freshSession "c8").messages.length = 0 := rfl
  rw [h1, h2, h3, h4, h5, h6]
  norm_num

theorem confusion_score_concrete :
    calculate_confusion_score (strLower "this is confusing, I already told you")
      (freshSession "c8") = 0 := by
  simp only [calculate_confusion_score]
  have h1 : (CONTEXT_CONFUSION_INDICATORS.filter
      (fun ind => substrIn ind (strLower "this is confusing, I already told you"))).length
        = 0 := by decide
  have h6 : (freshSession "c8").messages.length = 0 := rfl
  rw [h1, h6]
  norm_num

theorem ambiguity_score_concrete :
    calculate_ambiguity_score (strLower "this is confusing, I already told you") = 0 := by
  simp only [calculate_ambiguity_score]
  have h1 : (INTENT_AMBIGUITY_INDICATORS.filter
      (fun ind => substrIn ind (strLower "this is confusing, I already told you"))).length
        = 0 := by decide
  have h2 : (vague_terms.filter
      (fun term => substrIn term (strLower "this is confusing, I already told you"))).length
        = 0 := by decide
  have h3 : ((strLower "this is confusing, I already told you").data.filter
      (fun ch => ch == '?')).length = 0 := by decide
  rw [h1, h2, h3]
  norm_num

/-- Claim C8 counterexample: the frustration phrase scores only 0.3 (the
sole case-compatible indicator is `this is confusing`; the
`I already told you` indicator is stored with a capital `I` and cannot
match a lower-cased message), so on a session without further
frustration signals no USER_FRUSTRATION issue is reported. -/
theorem claim_C8_counterexample :
    calculate_frustration_score (strLower "this is confusing, I already told you")
        (freshSession "c8") = 3/10 ∧
    detect_conversation_issues "this is confusing, I already told you" (freshSession "c8")
        none = [] := by
  refine ⟨frustration_score_concrete, ?_⟩
  simp only [detect_conversation_issues]
  rw [frustration_score_concrete, confusion_score_concrete, ambiguity_score_concrete]
  norm_num

/-- Claim C8 amended: the message scores 0.3, below the 0.6 threshold, so
no frustration issue fires on a fresh session; the strategy rule itself
holds — USER_FRUSTRATION at confidence above 0.8 selects Escalation. -/
theorem claim_C8_amended_frustration :
    (calculate_frustration_score (strLower "this is confusing, I already told you")
        (freshSession "c8") = 3/10) ∧
    ¬(calculate_frustration_score (strLower "this is confusing, I already told you")
        (freshSession "c8") > 6/10) ∧
    (∀ confidence : ℚ, confidence > 8/10 →
      select_recovery_strategy ErrorType.user_frustration confidence
        = RecoveryStrategy.escalation) := by
  refine ⟨frustration_score_concrete, ?_, ?_⟩
  · rw [frustration_score_concrete]
    norm_num
  · intro confidence h
    simp [select_recovery_strategy, h]

/-- Witness for amended claim C8 at confidence 0.9. -/
theorem claim_C8_witness :
    select_recovery_strategy ErrorType.user_frustration (9/10)
      = RecoveryStrategy.escalation :=
  claim_C8_amended_frustration.2.2 (9/10) (by norm_num)

/-- Claim C9.  After every `_update_conversation_memory` call the topics
list holds at most 20 entries and the quality trend at most 50; once the
appended lists exceed those caps they are truncated to the most recent
15 and 30 respectively. -/
theorem claim_C9_memory_bounded :
    ∀ (memory : ConversationMemory) (topics : List String) (user_msg : String)
      (qp : QualityPoint),
      (update_conversation_memory memory topics user_msg qp).topics_discussed.length ≤ 20 ∧
      (update_conversation_memory memory topics user_msg qp).quality_trends.length ≤ 50 ∧
      ((memory.topics_discussed ++ topics).length > 20 →
        (update_conversation_memory memory topics user_msg qp).topics_discussed
          = (memory.topics_discussed ++ topics).drop
              ((memory.topics_discussed ++ topics).length - 15)) ∧
      ((memory.quality_trends ++ [qp]).length > 50 →
        (update_conversation_memory memory topics user_msg qp).quality_trends
          = (memory.quality_trends ++ [qp]).drop
              ((memory.quality_trends ++ [qp]).length - 30)) := by
  intro memory topics user_msg qp
  unfold update_conversation_memory
  dsimp only
  split_ifs <;>
    refine ⟨?_, ?_, fun hA => ?_, fun hB => ?_⟩ <;>
    simp_all [List.length_drop] <;>
    omega

/-- Witness for claim C9: 21 accumulated topics are truncated to the last
15 and 51 accumulated trend points to the last 30. -/
theorem claim_C9_witness :
    (update_conversation_memory
        { topics_discussed := List.replicate 21 "t",
          quality_trends :=
            List.replicate 51 ({ engagement := 0, relevance := 0 } : QualityPoint) }
        [] "ok" ({ engagement := 0, relevance := 0 } : QualityPoint)).topics_discussed
      = (List.replicate 21 "t" ++ ([] : List String)).drop
          ((List.replicate 21 "t" ++ ([] : List String)).length - 15) ∧
    (update_conversation_memory
        { topics_discussed := List.replicate 21 "t",
          quality_trends :=
            List.replicate 51 ({ engagement := 0, relevance := 0 } : QualityPoint) }
        [] "ok" ({ engagement := 0, relevance := 0 } : QualityPoint)).quality_trends
      = (List.replicate 51 ({ engagement := 0, relevance := 0 } : QualityPoint)
            ++ [({ engagement := 0, relevance := 0 } : QualityPoint)]).drop
          ((List.replicate 51 ({ engagement := 0, relevance := 0 } : QualityPoint)
            ++ [({ engagement := 0, relevance := 0 } : QualityPoint)]).length - 30) :=
  ⟨(claim_C9_memory_bounded _ _ _ _).2.2.1 (by simp),
   (claim_C9_memory_bounded _ _ _ _).2.2.2 (by simp)⟩

theorem analyze_communication_no_user (messages : List Message)
    (h : messages.filter (fun m => m.role == MessageRole.user) = []) :
    analyze_communication messages = "Direct" := by
  unfold analyze_communication
  rw [h]
  rfl

/-- Claim C10.  On any message list without user-role messages,
`analyze_user_psychology` returns the fixed default profile (Explorer,
Adaptive, Intuitive, Direct, Adventure, Moderate, General, Balanced). -/
theorem claim_C10_default_profile :
    ∀ messages : List Message, (∀ m ∈ messages, m.role ≠ MessageRole.user) →
      analyze_user_psychology messages = defaultPsychProfile := by
  intro messages h
  have hf : messages.filter (fun m => m.role == MessageRole.user) = [] := by
    rw [List.filter_eq_nil_iff]
    intro m hm
    simpa using h m hm
  simp only [analyze_user_psychology]
  rw [hf, analyze_communication_no_user messages hf]
  rfl

/-- Witness for claim C10 on a single assistant message. -/
theorem claim_C10_witness :
    analyze_user_psychology [{ role := MessageRole.assistant, content := "hello there" }]
      = defaultPsychProfile :=
  claim_C10_default_profile [{ role := MessageRole.assistant, content := "hello there" }]
    (by decide)

end TravelSpec
